import Mathlib

/-!
Verification development for the pipeline-set-version utility
(src/main.py): a shallow embedding of its credential provider
(assume_role), artifact version resolvers (get_ecr_versions,
get_s3_artifact_versions), parameter publisher (set_ssm_parameters /
update_parameterstore) and the orchestrator's parsing and publish phase
(lambda_handler), together with theorems about their behaviour.

External services (STS, ECR, S3 listings and object metadata, the JSON
decoder, SSM put_parameter) are modelled as explicit oracles/worlds that
the embedded functions consume, so every definition is executable.
-/

namespace SetVersion

/-- Python exceptions that the embedded code can raise. -/
inductive PyErr where
  /-- TypeError, e.g. using an unhashable value as a dict key. -/
  | typeError
  /-- ValueError, raised explicitly by the source. -/
  | valueError
  /-- json.JSONDecodeError from json.loads on malformed input. -/
  | jsonDecodeError
  /-- botocore ClientError from an AWS API call. -/
  | clientError
  /-- IndexError from subscripting an empty list. -/
  | indexError
  deriving DecidableEq, Repr

/-! ## Python string primitives used by the source -/

/-- The characters of the reserved version-tag suffix "-SHA1". -/
def sha1Chars : List Char := ['-', 'S', 'H', 'A', '1']

/-- Models Python str.endswith: true iff the suffix's characters are a
suffix of the string's characters. -/
def pyEndsWith (s suffix : String) : Bool :=
  List.isSuffixOf suffix.data s.data

/-- The part of a character list before the first occurrence of the
separator, the whole list when the separator does not occur: the first
component of Python s.split(sep) for a non-empty sep. -/
def splitFirst (sep : List Char) : List Char → List Char
  | [] => []
  | c :: rest =>
    if sep.isPrefixOf (c :: rest) then [] else c :: splitFirst sep rest

/-- Models t.split("-SHA1")[0] at source lines 126 and 270: the text of
the tag before the first occurrence of "-SHA1". -/
def pyExtract (t : String) : String :=
  String.mk (splitFirst sha1Chars t.data)

/-- ASCII lower-casing of one character, as Python str.lower does on the
prefixes relevant here. -/
def charLower (c : Char) : Char :=
  if 'A' ≤ c && c ≤ 'Z' then Char.ofNat (c.toNat + 32) else c

/-- Models s.lower().startswith(p) for an ASCII pattern p
(source line 300). -/
def pyLowerStartsWith (s p : String) : Bool :=
  List.isPrefixOf p.data (s.data.map charLower)

/-- True iff "-SHA1" occurs in v ++ "-SHA1" strictly before the final
copy of the suffix: exactly the situation in which the split-based
extraction cuts the tag early. -/
def hasEarlyOcc (sep : List Char) : List Char → Bool
  | [] => false
  | c :: rest => sep.isPrefixOf ((c :: rest) ++ sep) || hasEarlyOcc sep rest

/-! ## A stable sort modelling Python's sorted

Python's built-in sorted is a stable sort; the source uses it ascending
on image push timestamps (line 121) and descending on object
last-modified timestamps (line 245). -/

/-- Insert x into a descending-sorted list after every element with a
strictly larger key and before every element with a key ≤ its own, so
that elements originally earlier keep priority on ties. -/
def insertByDesc {α : Type} (key : α → Int) (x : α) : List α → List α
  | [] => [x]
  | y :: ys =>
    if key x < key y then y :: insertByDesc key x ys else x :: y :: ys

/-- Models sorted(l, key=key, reverse=True): stable descending sort. -/
def pySortedDesc {α : Type} (key : α → Int) : List α → List α
  | [] => []
  | x :: xs => insertByDesc key x (pySortedDesc key xs)

/-- Insert x into an ascending-sorted list after every element with a
strictly smaller key, keeping original order on ties. -/
def insertByAsc {α : Type} (key : α → Int) (x : α) : List α → List α
  | [] => [x]
  | y :: ys =>
    if key y < key x then y :: insertByAsc key x ys else x :: y :: ys

/-- Models sorted(l, key=key): stable ascending sort. -/
def pySortedAsc {α : Type} (key : α → Int) : List α → List α
  | [] => []
  | x :: xs => insertByAsc key x (pySortedAsc key xs)

/-! ## Credential provider: assume_role (source lines 28-50)

The STS service is an oracle mapping the attempt number to the
credentials of a successful call, or none for a ClientError.  The
source's while loop sleeps 5 seconds after every failed attempt; the
embedding counts the attempts with explicit fuel, so that termination
(or its absence) is a statement about fuel. -/

/-- The Credentials dict returned by sts.assume_role. -/
structure Credentials where
  accessKeyId : String
  secretAccessKey : String
  sessionToken : String
  deriving DecidableEq, Repr

/-- The retry loop of assume_role: attempt is the index of the next
call, waited the seconds slept so far, fuel the number of further
iterations under observation.  Returns the credentials of the first
successful attempt together with the total backoff, or none when the
loop is still running after fuel iterations. -/
def assume_role_loop (responses : Nat → Option Credentials) :
    Nat → Nat → Nat → Option (Credentials × Nat)
  | _, _, 0 => none
  | attempt, waited, fuel + 1 =>
    match responses attempt with
    | some c => some (c, waited)
    | none => assume_role_loop responses (attempt + 1) (waited + 5) fuel

/-- assume_role, observed for fuel iterations of its retry loop:
some (credentials, total backoff seconds) when the loop exits within
fuel iterations, none when it is still retrying. -/
def assume_role (responses : Nat → Option Credentials) (fuel : Nat) :
    Option (Credentials × Nat) :=
  assume_role_loop responses 0 0 fuel

/-! ## Publisher: update_parameterstore / set_ssm_parameters
(source lines 148-173 and 284-306)

The SSM service is an oracle `fails` telling, per parameter name,
whether put_parameter raises a ClientError.  A run returns the list of
parameter names for which a put was attempted (in order, the failing
attempt included) together with the error that aborted it, if any. -/

/-- The parameter path f"/{ssm_prefix}/{application}" of source
line 305. -/
def ssmName (ssmPfx application : String) : String :=
  "/" ++ ssmPfx ++ "/" ++ application

/-- update_parameterstore: one ssm.put_parameter call, which either
succeeds or raises a ClientError according to the oracle. -/
def update_parameterstore (fails : String → Bool) (name : String) :
    Except PyErr Unit :=
  if fails name then .error .clientError else .ok ()

/-- The write loop of set_ssm_parameters (source lines 304-306): one
put per (application, version) pair in order, aborting at the first
error.  Returns the attempted parameter names and the aborting error. -/
def ssmWriteLoop (fails : String → Bool) (ssmPfx : String) :
    List (String × String) → List String × Option PyErr
  | [] => ([], none)
  | (application, _version) :: rest =>
    let n := ssmName ssmPfx application
    match update_parameterstore fails n with
    | .error e => ([n], some e)
    | .ok _ =>
      let r := ssmWriteLoop fails ssmPfx rest
      (n :: r.1, r.2)

/-- set_ssm_parameters: validates the prefix (source line 300: raise
ValueError when it is empty or lower-cases to something starting with
"aws"), then runs the write loop. -/
def set_ssm_parameters (fails : String → Bool)
    (versions : List (String × String)) (ssmPfx : String) :
    List String × Option PyErr :=
  if ssmPfx.data.isEmpty || pyLowerStartsWith ssmPfx "aws" then
    ([], some .valueError)
  else
    ssmWriteLoop fails ssmPfx versions

/-! ## Object-store resolver: get_s3_artifact_versions
(source lines 176-281)

The S3 service is a world: the paginated listing under each prefix (one
inner list per list_objects_v2 response; an empty outer list models a
first response without a Contents key, which the source turns into a
skip), the "tags" metadata field of each object, and the behaviour of
json.loads on each metadata string. -/

/-- One listed S3 object: its key and its LastModified timestamp. -/
structure S3Object where
  key : String
  lastModified : Int
  deriving DecidableEq, Repr

/-- The S3-side environment of one run of get_s3_artifact_versions
against a fixed bucket. -/
structure S3World where
  /-- Pages of list_objects_v2 results for a given Prefix argument. -/
  listing : String → List (List S3Object)
  /-- The "tags" entry of an object's metadata dict, none when the
  metadata has no such key. -/
  tagsMeta : String → Option String
  /-- json.loads on a metadata string: a list of tag strings, or a
  JSONDecodeError. -/
  jsonParse : String → Except PyErr (List String)

/-- The Prefix argument computed at source line 205:
f"{s3_prefix + '/' if s3_prefix else ''}{application_name}/". -/
def listPfx (s3Pfx applicationName : String) : String :=
  (if s3Pfx.data.isEmpty then "" else s3Pfx ++ "/") ++ applicationName ++ "/"

/-- The pagination loop of source lines 217-223: starting from the
first response's Contents, append each further page's Contents. -/
def accumulateObjects (objects : List S3Object) :
    List (List S3Object) → List S3Object
  | [] => objects
  | page :: rest => accumulateObjects (objects ++ page) rest

/-- All objects listed under the artifact's prefix, across all pages
(empty when the first response had no Contents key). -/
def listedObjects (w : S3World) (s3Pfx applicationName : String) :
    List S3Object :=
  match w.listing (listPfx s3Pfx applicationName) with
  | [] => []
  | firstPage :: restPages => accumulateObjects firstPage restPages

/-- The valid_objects filter of source lines 230-238: keep objects
whose key matches any allowed key pattern.  Patterns are embedded as
their match functions. -/
def validObjects (w : S3World) (s3Pfx applicationName : String)
    (patterns : List (String → Bool)) : List S3Object :=
  (listedObjects w s3Pfx applicationName).filter
    (fun obj => patterns.any (fun p => p obj.key))

/-- The sorted_objects of source lines 245-249: valid objects, stably
sorted by LastModified timestamp, most recent first. -/
def sortedObjects (w : S3World) (s3Pfx applicationName : String)
    (patterns : List (String → Bool)) : List S3Object :=
  pySortedDesc (fun obj => obj.lastModified)
    (validObjects w s3Pfx applicationName patterns)

/-- The candidate scan of source lines 251-278: walk the sorted objects
most recent first; fetch each object's "tags" metadata (a missing or
empty field gives tags = None, a non-empty one is passed to json.loads,
whose failure propagates); accept the first object whose tag list is
non-empty, has a tag ending in "-SHA1" and contains every required tag
filter, and whose extracted version is non-empty; return that version. -/
def scanCandidates (w : S3World) (tagFilters : List String) :
    List S3Object → Except PyErr (Option String)
  | [] => .ok none
  | obj :: rest =>
    match w.tagsMeta obj.key with
    | none => scanCandidates w tagFilters rest
    | some s =>
      if s.data.isEmpty then scanCandidates w tagFilters rest
      else
        match w.jsonParse s with
        | .error e => .error e
        | .ok tags =>
          if !tags.isEmpty && tags.any (fun t => pyEndsWith t "-SHA1") &&
              tagFilters.all (fun f => tags.contains f) then
            match tags.find? (fun t => pyEndsWith t "-SHA1") with
            | none => scanCandidates w tagFilters rest
            | some t =>
              let version := pyExtract t
              if version.data.isEmpty then scanCandidates w tagFilters rest
              else .ok (some version)
          else scanCandidates w tagFilters rest

/-- The per-artifact body of get_s3_artifact_versions: list (skipping
the artifact when the first response has no Contents), paginate,
filter, sort, scan. -/
def resolveArtifact (w : S3World) (applicationName : String)
    (tagFilters : List String) (s3Pfx : String)
    (patterns : List (String → Bool)) : Except PyErr (Option String) :=
  match w.listing (listPfx s3Pfx applicationName) with
  | [] => .ok none
  | _ :: _ =>
    let sorted := sortedObjects w s3Pfx applicationName patterns
    if sorted.isEmpty then .ok none
    else scanCandidates w tagFilters sorted

/-- get_s3_artifact_versions: resolve each requested application in
order, omitting those without a qualifying candidate; an exception
raised while resolving one artifact aborts the whole call. -/
def get_s3_artifact_versions (w : S3World)
    (applications : List (String × List String)) (s3Pfx : String)
    (patterns : List (String → Bool)) :
    Except PyErr (List (String × String)) :=
  match applications with
  | [] => .ok []
  | (applicationName, tagFilters) :: rest =>
    match resolveArtifact w applicationName tagFilters s3Pfx patterns with
    | .error e => .error e
    | .ok none => get_s3_artifact_versions w rest s3Pfx patterns
    | .ok (some version) =>
      match get_s3_artifact_versions w rest s3Pfx patterns with
      | .error e => .error e
      | .ok versions => .ok ((applicationName, version) :: versions)

/-- Match function of the default allowed key pattern
r"[a-z0-9]{7}\.(zip|jar)$" (source line 180): re.search succeeds iff
the key ends in ".zip" or ".jar" preceded by at least 7 characters from
[a-z0-9]. -/
def isLowerAlnum (c : Char) : Bool :=
  ('a' ≤ c && c ≤ 'z') || ('0' ≤ c && c ≤ '9')

/-- See isLowerAlnum: the default key pattern of
get_s3_artifact_versions. -/
def matchesDefaultKeyPattern (key : String) : Bool :=
  let d := key.data
  (List.isSuffixOf ".zip".data d || List.isSuffixOf ".jar".data d) &&
    (let stem := d.take (d.length - 4)
     decide (stem.length ≥ 7) && (stem.drop (stem.length - 7)).all isLowerAlnum)

/-! ## Registry resolver: get_ecr_versions (source lines 53-145)

The ECR service is a world: the repository dicts returned by
describe_repositories, and per repository name the tagged images
returned by describe_images (or its ImageNotFoundException). -/

/-- One repository dict as returned by describe_repositories.  In
Python this is a dict, hence an unhashable value. -/
structure EcrRepo where
  repositoryName : String
  deriving DecidableEq, Repr

/-- One image detail dict returned by describe_images. -/
structure EcrImage where
  imageTags : List String
  imagePushedAt : Int
  deriving DecidableEq, Repr

/-- The ECR-side environment of one run of get_ecr_versions. -/
structure EcrWorld where
  /-- describe_repositories()["repositories"]. -/
  repositories : List EcrRepo
  /-- describe_images for a repository name and an imageTag filter
  list; the error is ImageNotFoundException. -/
  describeImages : String → List String → Except Unit (List EcrImage)

/-- Source line 81 reads applications[repo].get("tag_filters", []) with
repo bound to the repository dict itself, not its name: subscripting a
Python dict with an unhashable dict key raises TypeError before the
lookup can consult the dict's contents. -/
def pyDictGetByRepo (applications : List (String × List String))
    (repo : EcrRepo) : Except PyErr (List String) :=
  .error .typeError

/-- The per-repository loop of get_ecr_versions (source lines 79-142),
starting with the applications[repo] subscript of line 81 and, were
that to return tag filters, continuing with the describe_images query,
the SHA1-tag filter, the stable ascending sort by push time, the
ambiguity check on the most recent image and the version extraction. -/
def ecrLoop (w : EcrWorld) (applications : List (String × List String)) :
    List EcrRepo → Except PyErr (List (String × String))
  | [] => .ok []
  | repo :: rest =>
    match pyDictGetByRepo applications repo with
    | .error e => .error e
    | .ok imageTagFilters =>
      match w.describeImages repo.repositoryName imageTagFilters with
      | .error _ => ecrLoop w applications rest
      | .ok images =>
        let filteredImages := images.filter
          (fun image => image.imageTags.any (fun t => pyEndsWith t "-SHA1"))
        if filteredImages.isEmpty then ecrLoop w applications rest
        else
          let sortedImages :=
            pySortedAsc (fun image => image.imagePushedAt) filteredImages
          match sortedImages.getLast? with
          | none => ecrLoop w applications rest
          | some mostRecentImage =>
            let sha1Tags :=
              (mostRecentImage.imageTags.filter
                (fun t => pyEndsWith t "-SHA1")).map pyExtract
            if sha1Tags.length > 1 then ecrLoop w applications rest
            else
              match sha1Tags.head? with
              | none => .error .indexError
              | some version =>
                match ecrLoop w applications rest with
                | .error e => .error e
                | .ok versions =>
                  .ok ((repo.repositoryName, version) :: versions)

/-- get_ecr_versions: restrict the listed repositories to the requested
application names (when any repository was listed, source lines 70-76)
and run the per-repository loop. -/
def get_ecr_versions (w : EcrWorld)
    (applications : List (String × List String)) :
    Except PyErr (List (String × String)) :=
  let repositories :=
    if w.repositories.isEmpty then w.repositories
    else w.repositories.filter
      (fun r => applications.any (fun a => a.1 = r.repositoryName))
  ecrLoop w applications repositories

/-! ## Orchestrator: lambda_handler (source lines 309-386)

Two pieces are embedded: the per-class application-map parsing with its
legacy fallback (lines 319-336), and the publish phase guarded by
set_versions (lines 365-380). -/

/-- The parsing pattern event.get(modern_field, {}) or
{app: {"tag_filters": shared_filters} for app in legacy_names}: the
legacy flat list is used whenever the modern map is absent (none) or
empty, since both {} defaults and explicit empty dicts are falsy. -/
def parseApplications (modern : Option (List (String × List String)))
    (legacyNames : List String) (legacyFilters : List String) :
    List (String × List String) :=
  let m := match modern with | none => [] | some apps => apps
  if m.isEmpty then legacyNames.map (fun app => (app, legacyFilters)) else m

/-- The inbound event fields feeding the three application maps. -/
structure Event where
  ecr_applications : Option (List (String × List String))
  ecr_repositories : List String
  ecr_image_tag_filters : List String
  lambda_applications : Option (List (String × List String))
  lambda_names : List String
  lambda_tag_filters : List String
  frontend_applications : Option (List (String × List String))
  frontend_names : List String
  frontend_tag_filters : List String

/-- ecr_applications as computed at source lines 319-322. -/
def handlerEcrApplications (e : Event) : List (String × List String) :=
  parseApplications e.ecr_applications e.ecr_repositories
    e.ecr_image_tag_filters

/-- lambda_applications as computed at source lines 326-329. -/
def handlerLambdaApplications (e : Event) : List (String × List String) :=
  parseApplications e.lambda_applications e.lambda_names
    e.lambda_tag_filters

/-- frontend_applications as computed at source lines 333-336. -/
def handlerFrontendApplications (e : Event) : List (String × List String) :=
  parseApplications e.frontend_applications e.frontend_names
    e.frontend_tag_filters

/-- The publish phase of lambda_handler (source lines 365-380): when
set_versions is requested, first compare the size of the union of the
three version maps' key sets with the sum of their sizes and raise
ValueError on a shortfall; otherwise write the lambda, frontend and ecr
maps in that order through set_ssm_parameters, stopping at the first
error.  Returns the attempted parameter names and the aborting error. -/
def publishPhase (fails : String → Bool) (set_versions : Bool)
    (ecrVersions frontendVersions lambdaVersions : List (String × String))
    (ssmPfx : String) : List String × Option PyErr :=
  if set_versions then
    if (ecrVersions.map Prod.fst ++ frontendVersions.map Prod.fst ++
          lambdaVersions.map Prod.fst).dedup.length ≠
        ecrVersions.length + frontendVersions.length + lambdaVersions.length
    then ([], some .valueError)
    else
      let r1 := set_ssm_parameters fails lambdaVersions ssmPfx
      match r1.2 with
      | some e => (r1.1, some e)
      | none =>
        let r2 := set_ssm_parameters fails frontendVersions ssmPfx
        match r2.2 with
        | some e => (r1.1 ++ r2.1, some e)
        | none =>
          let r3 := set_ssm_parameters fails ecrVersions ssmPfx
          (r1.1 ++ r2.1 ++ r3.1, r3.2)
  else ([], none)

/-! ## Concrete instances used to settle the claims -/

/-- The object-store scenario of the spec's example, verbatim: two
objects under app/x/, the older tagged ["master-branch-SHA1"], the
newer tagged ["other"]. -/
def exampleWorldStated : S3World where
  listing := fun p =>
    if p = "app/x/" then
      [[⟨"app/x/aaa1111.zip", 1⟩, ⟨"app/x/bbb2222.zip", 2⟩]]
    else []
  tagsMeta := fun k =>
    if k = "app/x/aaa1111.zip" then some "[\"master-branch-SHA1\"]"
    else if k = "app/x/bbb2222.zip" then some "[\"other\"]"
    else none
  jsonParse := fun s =>
    if s = "[\"master-branch-SHA1\"]" then .ok ["master-branch-SHA1"]
    else if s = "[\"other\"]" then .ok ["other"]
    else .error .jsonDecodeError

/-- The same scenario with the older object's tag set also carrying the
required filter tag "master-branch" itself. -/
def exampleWorldAmended : S3World where
  listing := fun p =>
    if p = "app/x/" then
      [[⟨"app/x/aaa1111.zip", 1⟩, ⟨"app/x/bbb2222.zip", 2⟩]]
    else []
  tagsMeta := fun k =>
    if k = "app/x/aaa1111.zip" then
      some "[\"master-branch-SHA1\", \"master-branch\"]"
    else if k = "app/x/bbb2222.zip" then some "[\"other\"]"
    else none
  jsonParse := fun s =>
    if s = "[\"master-branch-SHA1\", \"master-branch\"]" then
      .ok ["master-branch-SHA1", "master-branch"]
    else if s = "[\"other\"]" then .ok ["other"]
    else .error .jsonDecodeError

/-- A registry world with one repository holding one cleanly tagged
image: the happiest possible input for get_ecr_versions. -/
def exampleEcrWorld : EcrWorld where
  repositories := [⟨"my-repo"⟩]
  describeImages := fun n _ =>
    if n = "my-repo" then .ok [⟨["abc1234-SHA1"], 1⟩] else .error ()

/-- An object-store world whose single matching object carries
non-empty, malformed JSON in its "tags" metadata field. -/
def malformedTagsWorld : S3World where
  listing := fun p =>
    if p = "pre/app/" then [[⟨"pre/app/abcdef1.zip", 5⟩]] else []
  tagsMeta := fun k =>
    if k = "pre/app/abcdef1.zip" then some "not json" else none
  jsonParse := fun _ => .error .jsonDecodeError

/-- A concrete event that sets all three modern application maps to
explicitly empty dicts while supplying legacy flat lists. -/
def exampleEvent : Event where
  ecr_applications := some []
  ecr_repositories := ["repo-one"]
  ecr_image_tag_filters := ["filter-e"]
  lambda_applications := some []
  lambda_names := ["lambda-one"]
  lambda_tag_filters := ["filter-l"]
  frontend_applications := some []
  frontend_names := ["front-one"]
  frontend_tag_filters := ["filter-f"]

/-! ## Theorems -/

/-- Claim C1, the claim as stated, refuted: on exactly the spec's
example — tag filter ["master-branch"], an older object tagged
["master-branch-SHA1"] and a newer object tagged ["other"] — the
resolver selects nothing at all: "master-branch" is not an element of
the tag set ["master-branch-SHA1"], so the required-filter check
rejects the older object too and the artifact is absent from the
result, instead of being mapped to a version. -/
theorem C1_counterexample :
    get_s3_artifact_versions exampleWorldStated [("x", ["master-branch"])]
      "app" [matchesDefaultKeyPattern] = .ok [] := rfl

/-- Claim C1 (amended): with the older object's tag set carrying the
required filter tag "master-branch" as an element alongside its
"master-branch-SHA1" version tag, the resolver falls back past the
newer non-qualifying object (tagged ["other"]), selects the older
object and maps the artifact to the version extracted from its
"-SHA1" tag. -/
theorem C1_amended_falls_back_to_older :
    get_s3_artifact_versions exampleWorldAmended [("x", ["master-branch"])]
      "app" [matchesDefaultKeyPattern] = .ok [("x", "master-branch")] := rfl

/-- The retry loop of assume_role never exits while every attempt
fails, whatever the attempt index and accumulated backoff. -/
theorem assume_role_loop_all_fail (attempt waited fuel : Nat) :
    assume_role_loop (fun _ => none) attempt waited fuel = none := by
  induction fuel generalizing attempt waited with
  | zero => rfl
  | succ n ih => simpa [assume_role_loop] using ih (attempt + 1) (waited + 5)

/-- Claim C2, the claim as stated, refuted: on the identity-service
response sequence that fails every attempt, assume_role does not
terminate — as a function of the observation fuel it is the constant
none, i.e. however long the retry loop is observed it is still
retrying, so there is no bounded retry count and no fatal error after
exhaustion. -/
theorem C2_counterexample :
    assume_role (fun _ => none) = fun _ => none := by
  funext fuel
  exact assume_role_loop_all_fail 0 0 fuel

/-- If attempt number offset + k succeeds and every attempt before it
fails, the retry loop returns the credentials of that attempt after 5
more seconds of backoff per failed attempt. -/
theorem assume_role_loop_first_success (k : Nat)
    (responses : Nat → Option Credentials) (c : Credentials)
    (offset waited fuel : Nat) (hk : responses (offset + k) = some c)
    (hmin : ∀ j, j < k → responses (offset + j) = none) (hf : k < fuel) :
    assume_role_loop responses offset waited fuel = some (c, waited + 5 * k) := by
  induction k generalizing offset waited fuel with
  | zero =>
    obtain ⟨f, rfl⟩ : ∃ f, fuel = f + 1 :=
      ⟨fuel - 1, by omega⟩
    have hk' : responses offset = some c := by simpa using hk
    simp [assume_role_loop, hk']
  | succ n ih =>
    obtain ⟨f, rfl⟩ : ∃ f, fuel = f + 1 := ⟨fuel - 1, by omega⟩
    have h0 : responses offset = none := by
      simpa using hmin 0 (Nat.succ_pos n)
    have hrec := ih (offset + 1) (waited + 5) f
      (by rw [show offset + 1 + n = offset + (n + 1) by omega]; exact hk)
      (fun j hj => by
        rw [show offset + 1 + j = offset + (j + 1) by omega]
        exact hmin (j + 1) (by omega))
      (by omega)
    have harith : waited + 5 + 5 * n = waited + 5 * (n + 1) := by omega
    rw [harith] at hrec
    simp [assume_role_loop, h0, hrec]

/-- Claim C2 (amended): assume_role retries failed role assumptions
with a fixed 5-second backoff and no retry bound, no fallback role and
no fatal-error path: it terminates exactly when some attempt succeeds,
and when the first success is attempt k it returns that attempt's
credentials after a total backoff of 5k seconds. -/
theorem C2_amended_terminates_on_first_success
    (responses : Nat → Option Credentials) (k : Nat) (c : Credentials)
    (hk : responses k = some c) (hmin : ∀ j, j < k → responses j = none)
    (fuel : Nat) (hf : k < fuel) :
    assume_role responses fuel = some (c, 5 * k) := by
  simpa [assume_role] using
    assume_role_loop_first_success k responses c 0 0 fuel (by simpa using hk)
      (fun j hj => by simpa using hmin j hj) hf

/-- Claim C2 (amended), witnessed: a sequence failing attempts 0 and 1
and succeeding on attempt 2 terminates with attempt 2's credentials
after 10 seconds of total backoff. -/
theorem C2_amended_witness :
    assume_role
      (fun n => if n = 2 then some ⟨"AK", "SK", "ST"⟩ else none) 3 =
      some (⟨"AK", "SK", "ST"⟩, 10) :=
  C2_amended_terminates_on_first_success
    (fun n => if n = 2 then some ⟨"AK", "SK", "ST"⟩ else none) 2
    ⟨"AK", "SK", "ST"⟩ rfl (by decide) 3 (by decide)

/-- Claim C3: the code, not the claim, is at fault.  get_ecr_versions
never reaches its selection logic: its loop body subscripts the
applications dict with the repository dict itself (source line 81,
applications[repo], where the name was already extracted one line
earlier), which raises TypeError for every non-empty candidate set —
here a registry whose single requested repository holds a single image
cleanly tagged "abc1234-SHA1". -/
theorem C3_code_bug_typeerror :
    get_ecr_versions exampleEcrWorld [("my-repo", [])] =
      .error .typeError := rfl

/-- A tag consisting of a prefix with no early occurrence of "-SHA1"
followed by "-SHA1" is split by the extraction exactly at that final
suffix. -/
theorem splitFirst_no_early_occ (v : List Char)
    (h : hasEarlyOcc sha1Chars v = false) :
    splitFirst sha1Chars (v ++ sha1Chars) = v := by
  induction v with
  | nil => rfl
  | cons c rest ih =>
    rw [hasEarlyOcc, Bool.or_eq_false_iff] at h
    have h1 : sha1Chars.isPrefixOf (c :: (rest ++ sha1Chars)) = false := by
      simpa [List.cons_append] using h.1
    rw [List.cons_append, splitFirst, h1]
    simp [ih h.2]

/-- Claim C5 (amended): for every tag ending in "-SHA1" in which the
suffix "-SHA1" occurs nowhere earlier, concatenating the extracted
version with "-SHA1" yields back the original tag; both the registry
and the object-store resolvers extract through this same pyExtract. -/
theorem C5_amended_round_trip (v : List Char)
    (h : hasEarlyOcc sha1Chars v = false) :
    pyExtract (String.mk (v ++ sha1Chars)) ++ "-SHA1" =
      String.mk (v ++ sha1Chars) := by
  show String.mk (splitFirst sha1Chars (v ++ sha1Chars)) ++
      String.mk sha1Chars = String.mk (v ++ sha1Chars)
  rw [splitFirst_no_early_occ v h]
  rfl

/-- Claim C5, the claim as stated, refuted: the tag "a-SHA1-SHA1" ends
in "-SHA1" and so is accepted by the reserved-suffix filter, but the
split-based extraction cuts at the first occurrence, giving "a", and
"a" ++ "-SHA1" is not the original tag. -/
theorem C5_counterexample :
    pyEndsWith "a-SHA1-SHA1" "-SHA1" = true ∧
      pyExtract "a-SHA1-SHA1" ++ "-SHA1" ≠ "a-SHA1-SHA1" := by
  decide

/-- Claim C5 (amended), witnessed at the tag "deadbee-SHA1". -/
theorem C5_amended_witness :
    hasEarlyOcc sha1Chars "deadbee".data = false ∧
      pyExtract (String.mk ("deadbee".data ++ sha1Chars)) ++ "-SHA1" =
        String.mk ("deadbee".data ++ sha1Chars) :=
  ⟨by decide, C5_amended_round_trip "deadbee".data (by decide)⟩

/-- A prefix that is neither empty nor an "aws"-prefixed name passes
the publisher's validation, which then runs the write loop. -/
theorem set_ssm_parameters_valid (p : String) (hp1 : p ≠ "")
    (hp2 : pyLowerStartsWith p "aws" = false) (fails : String → Bool)
    (vs : List (String × String)) :
    set_ssm_parameters fails vs p = ssmWriteLoop fails p vs := by
  have hne : p.data.isEmpty = false := by
    cases hd : p.data.isEmpty
    · rfl
    · exact absurd (String.ext (by simpa using List.isEmpty_iff.1 hd)) hp1
  simp [set_ssm_parameters, hne, hp2]

/-- The write loop attempts each name in order until the first put
failure, which it reports, leaving every later name unattempted. -/
theorem ssmWriteLoop_abort (fails : String → Bool) (p : String)
    (pre post : List (String × String)) (bad : String × String)
    (hpre : ∀ nv ∈ pre, fails (ssmName p nv.1) = false)
    (hbad : fails (ssmName p bad.1) = true) :
    ssmWriteLoop fails p (pre ++ bad :: post) =
      (pre.map (fun nv => ssmName p nv.1) ++ [ssmName p bad.1],
        some PyErr.clientError) := by
  obtain ⟨bn, bv⟩ := bad
  induction pre with
  | nil => simp [ssmWriteLoop, update_parameterstore, hbad]
  | cons a pre' ih =>
    obtain ⟨an, av⟩ := a
    have ha : fails (ssmName p an) = false := hpre (an, av) (by simp)
    have ih' := ih (fun nv hnv => hpre nv (by simp [hnv]))
    simp [ssmWriteLoop, update_parameterstore, ha, ih']

/-- Claim C4, the claim as stated, refuted: with a valid prefix "p" and
two names to write, a put failure on "a" makes set_ssm_parameters stop:
it reports the error after attempting only "/p/a", and the write for
the remaining name "b" is never attempted. -/
theorem C4_counterexample :
    set_ssm_parameters (fun s => s = "/p/a") [("a", "1"), ("b", "2")] "p" =
      (["/p/a"], some PyErr.clientError) ∧
    "/p/b" ∉
      (set_ssm_parameters (fun s => s = "/p/a") [("a", "1"), ("b", "2")]
        "p").1 := by
  decide

/-- Claim C4 (amended): set_ssm_parameters writes the (name, version)
pairs sequentially in order; a put failure on one name propagates
immediately, so the failing name's write is the last one attempted and
none of the remaining names' writes are attempted (earlier completed
writes are not rolled back). -/
theorem C4_amended_failure_stops_remaining (fails : String → Bool)
    (pre post : List (String × String)) (bad : String × String)
    (p : String) (hp1 : p ≠ "") (hp2 : pyLowerStartsWith p "aws" = false)
    (hpre : ∀ nv ∈ pre, fails (ssmName p nv.1) = false)
    (hbad : fails (ssmName p bad.1) = true) :
    set_ssm_parameters fails (pre ++ bad :: post) p =
      (pre.map (fun nv => ssmName p nv.1) ++ [ssmName p bad.1],
        some PyErr.clientError) := by
  rw [set_ssm_parameters_valid p hp1 hp2,
    ssmWriteLoop_abort fails p pre post bad hpre hbad]

/-- Claim C4 (amended), witnessed: a failure on the middle of three
names attempts exactly the first two puts and aborts. -/
theorem C4_amended_witness :
    set_ssm_parameters (fun s => s = "/p/b")
      [("a", "1"), ("b", "2"), ("c", "3")] "p" =
      (["/p/a", "/p/b"], some PyErr.clientError) := by
  have h := C4_amended_failure_stops_remaining (fun s => s = "/p/b")
    [("a", "1")] [("c", "3")] ("b", "2") "p" (by decide) (by decide)
    (by decide) (by decide)
  simpa using h

/-- The write loop with a put oracle that never fails attempts every
name in order and reports no error. -/
theorem ssmWriteLoop_nofail (p : String) (vs : List (String × String)) :
    ssmWriteLoop (fun _ => false) p vs =
      (vs.map (fun nv => ssmName p nv.1), none) := by
  induction vs with
  | nil => rfl
  | cons a rest ih =>
    obtain ⟨an, av⟩ := a
    simp [ssmWriteLoop, update_parameterstore, ih]

/-- Claim C7: set_ssm_parameters raises ValueError before attempting
any parameter write whenever the prefix is the empty string or begins
(case-insensitively) with the provider's reserved namespace "aws"; for
any other prefix it proceeds to the writes, attempting every name. -/
theorem C7_prefix_validation (vs : List (String × String)) (p : String) :
    ((p = "" ∨ pyLowerStartsWith p "aws" = true) →
      ∀ fails : String → Bool,
        set_ssm_parameters fails vs p = ([], some PyErr.valueError)) ∧
    (¬(p = "" ∨ pyLowerStartsWith p "aws" = true) →
      set_ssm_parameters (fun _ => false) vs p =
        (vs.map (fun nv => ssmName p nv.1), none)) := by
  constructor
  · rintro (rfl | hp) fails
    · simp [set_ssm_parameters]
    · simp [set_ssm_parameters, hp]
  · intro hp
    push_neg at hp
    rw [set_ssm_parameters_valid p hp.1 (by simpa using hp.2),
      ssmWriteLoop_nofail]

/-- Claim C7, witnessed: the reserved prefix "aws-foo" aborts with no
writes, while the ordinary prefix "p" attempts its single write. -/
theorem C7_prefix_validation_witness :
    set_ssm_parameters (fun _ => false) [("a", "1")] "aws-foo" =
      ([], some PyErr.valueError) ∧
    set_ssm_parameters (fun _ => false) [("a", "1")] "p" =
      (["/p/a"], none) := by
  constructor
  · exact (C7_prefix_validation [("a", "1")] "aws-foo").1
      (Or.inr (by decide)) (fun _ => false)
  · have h := (C7_prefix_validation [("a", "1")] "p").2 (by decide)
    simpa using h

/-- Claim C6: when publishing is requested and one artifact name
appears in more than one of the three resolved class maps, the
orchestrator's publish phase raises ValueError before attempting any
parameter-store write: the union of the key sets is then strictly
smaller than the sum of the map sizes, so the collision check at the
top of the phase fires with an empty write trace. -/
theorem C6_collision_raises_before_writes (fails : String → Bool)
    (ecrV frontV lamV : List (String × String)) (ssmPfx x : String)
    (hx : (x ∈ ecrV.map Prod.fst ∧ x ∈ frontV.map Prod.fst) ∨
          (x ∈ ecrV.map Prod.fst ∧ x ∈ lamV.map Prod.fst) ∨
          (x ∈ frontV.map Prod.fst ∧ x ∈ lamV.map Prod.fst)) :
    publishPhase fails true ecrV frontV lamV ssmPfx =
      ([], some PyErr.valueError) := by
  have hnd : ¬(ecrV.map Prod.fst ++ frontV.map Prod.fst ++
      lamV.map Prod.fst).Nodup := by
    intro hnodup
    rcases List.nodup_append.1 hnodup with ⟨hef, _, hdisj⟩
    rcases List.nodup_append.1 hef with ⟨_, _, hefd⟩
    rcases hx with ⟨hxe, hxf⟩ | ⟨hxe, hxl⟩ | ⟨hxf, hxl⟩
    · exact hefd hxe hxf
    · exact hdisj (List.mem_append.2 (Or.inl hxe)) hxl
    · exact hdisj (List.mem_append.2 (Or.inr hxf)) hxl
  have hlen : (ecrV.map Prod.fst ++ frontV.map Prod.fst ++
      lamV.map Prod.fst).dedup.length ≠
      ecrV.length + frontV.length + lamV.length := by
    intro heq
    apply hnd
    have hsub := List.dedup_sublist
      (ecrV.map Prod.fst ++ frontV.map Prod.fst ++ lamV.map Prod.fst)
    have hlen2 : (ecrV.map Prod.fst ++ frontV.map Prod.fst ++
        lamV.map Prod.fst).dedup.length =
        (ecrV.map Prod.fst ++ frontV.map Prod.fst ++
          lamV.map Prod.fst).length := by
      rw [heq]
      simp only [List.length_append, List.length_map]
    rw [← hsub.eq_of_length hlen2]
    exact List.nodup_dedup _
  unfold publishPhase
  rw [if_pos rfl, if_pos hlen]

/-- Claim C6, witnessed: an ecr map and a lambda map sharing the name
"svc-a" abort the publish phase with no writes. -/
theorem C6_collision_witness :
    publishPhase (fun _ => false) true [("svc-a", "1")] []
      [("svc-a", "2")] "p" = ([], some PyErr.valueError) :=
  C6_collision_raises_before_writes (fun _ => false) [("svc-a", "1")] []
    [("svc-a", "2")] "p" "svc-a" (by decide)

/-- The pagination loop appends the pages in order to its accumulator:
it collects exactly the concatenation of all pages. -/
theorem accumulateObjects_eq_flatten (pages : List (List S3Object))
    (objects : List S3Object) :
    accumulateObjects objects pages = objects ++ pages.flatten := by
  induction pages generalizing objects with
  | nil => simp [accumulateObjects]
  | cons page rest ih => simp [accumulateObjects, ih]

/-- Claim C8: for every artifact, the object-store resolver first
accumulates the objects of all listing pages and only then applies the
key-pattern filter: its set of valid candidates equals the filter
applied to the flattening of the complete paginated listing. -/
theorem C8_paginate_then_filter (w : S3World)
    (s3Pfx applicationName : String) (patterns : List (String → Bool)) :
    validObjects w s3Pfx applicationName patterns =
      (w.listing (listPfx s3Pfx applicationName)).flatten.filter
        (fun obj => patterns.any (fun p => p obj.key)) := by
  cases h : w.listing (listPfx s3Pfx applicationName) with
  | nil => simp [validObjects, listedObjects, h]
  | cons firstPage restPages =>
    simp [validObjects, listedObjects, h, accumulateObjects_eq_flatten]

/-- Claim C9: if the sorted candidate scan of an artifact reaches an
object whose "tags" metadata field is a non-empty string on which
json.loads raises, the exception propagates out of the whole
get_s3_artifact_versions call — the candidate is not skipped, the
artifact is not skipped, and no later artifact is resolved. -/
theorem C9_malformed_tags_abort (w : S3World)
    (applicationName s : String) (tagFilters : List String)
    (restApps : List (String × List String)) (s3Pfx : String)
    (patterns : List (String → Bool)) (badObj : S3Object)
    (rest : List S3Object) (e : PyErr)
    (hsort : sortedObjects w s3Pfx applicationName patterns =
      badObj :: rest)
    (hmeta : w.tagsMeta badObj.key = some s) (hs : s ≠ "")
    (hparse : w.jsonParse s = .error e) :
    get_s3_artifact_versions w ((applicationName, tagFilters) :: restApps)
      s3Pfx patterns = .error e := by
  have hse : s.data.isEmpty = false := by
    cases hd : s.data.isEmpty
    · rfl
    · exact absurd (String.ext (by simpa using List.isEmpty_iff.1 hd)) hs
  have hscan : scanCandidates w tagFilters (badObj :: rest) = .error e := by
    simp [scanCandidates, hmeta, hse, hparse]
  cases hl : w.listing (listPfx s3Pfx applicationName) with
  | nil =>
    rw [sortedObjects, validObjects, listedObjects, hl] at hsort
    simp [pySortedDesc] at hsort
  | cons q qs =>
    simp [get_s3_artifact_versions, resolveArtifact, hl, hsort, hscan]

/-- Claim C9, witnessed: a single matching object with metadata
tags = "not json" aborts a two-artifact run with the decode error. -/
theorem C9_malformed_tags_witness :
    get_s3_artifact_versions malformedTagsWorld
      [("app", []), ("later", [])] "pre" [matchesDefaultKeyPattern] =
      .error .jsonDecodeError :=
  C9_malformed_tags_abort malformedTagsWorld "app" "not json" []
    [("later", [])] "pre" [matchesDefaultKeyPattern]
    ⟨"pre/app/abcdef1.zip", 5⟩ [] .jsonDecodeError (by decide) rfl
    (by decide) rfl

/-- Claim C10: in the orchestrator's request parsing, the legacy flat
lists (ecr_repositories, lambda_names, frontend_names with their shared
tag-filter lists) are used whenever the corresponding modern
per-artifact map is absent or empty — in particular an explicitly empty
modern map does not suppress them. -/
theorem C10_empty_modern_map_uses_legacy (e : Event) :
    (e.ecr_applications = some [] → handlerEcrApplications e =
      e.ecr_repositories.map (fun app => (app, e.ecr_image_tag_filters))) ∧
    (e.ecr_applications = none → handlerEcrApplications e =
      e.ecr_repositories.map (fun app => (app, e.ecr_image_tag_filters))) ∧
    (e.lambda_applications = some [] → handlerLambdaApplications e =
      e.lambda_names.map (fun app => (app, e.lambda_tag_filters))) ∧
    (e.lambda_applications = none → handlerLambdaApplications e =
      e.lambda_names.map (fun app => (app, e.lambda_tag_filters))) ∧
    (e.frontend_applications = some [] → handlerFrontendApplications e =
      e.frontend_names.map (fun app => (app, e.frontend_tag_filters))) ∧
    (e.frontend_applications = none → handlerFrontendApplications e =
      e.frontend_names.map (fun app => (app, e.frontend_tag_filters))) := by
  refine ⟨?_, ?_, ?_, ?_, ?_, ?_⟩ <;> intro h <;>
    simp [handlerEcrApplications, handlerLambdaApplications,
      handlerFrontendApplications, parseApplications, h]

/-- Claim C10, witnessed: an event with all three modern maps
explicitly empty still builds each application map from the legacy
lists with the shared tag-filter list. -/
theorem C10_empty_modern_map_witness :
    handlerEcrApplications exampleEvent = [("repo-one", ["filter-e"])] ∧
    handlerLambdaApplications exampleEvent =
      [("lambda-one", ["filter-l"])] ∧
    handlerFrontendApplications exampleEvent =
      [("front-one", ["filter-f"])] :=
  ⟨(C10_empty_modern_map_uses_legacy exampleEvent).1 rfl,
   (C10_empty_modern_map_uses_legacy exampleEvent).2.2.1 rfl,
   (C10_empty_modern_map_uses_legacy exampleEvent).2.2.2.2.1 rfl⟩

end SetVersion
